import Mathlib

/-!
Verification of the AmbientSoundAssistant audio lifecycle.

Shallow embedding of the audio-processing lifecycle implemented in
src/app/page.jsx (component AmbientSoundApp).  React state hooks and
mutable refs are modelled as fields of a single state record; every
handler of the component becomes a state-transformer function.  The two
asynchronous suspension points of startAmbientSound (capture acquisition
followed by graph construction) are modelled by splitting the handler
into its synchronous prefix and a resolution step parameterised by the
platform outcome, so that interleavings with stopAmbientSound can be
expressed as plain function composition.  The analyser buffer read by the
level meter is an environment input (a list of unsigned 8-bit samples).
JavaScript float arithmetic is interpreted exactly over the rationals.
-/

namespace AmbientSound

/-- State of the component AmbientSoundApp (src/app/page.jsx lines 14-35):
the React state hooks that matter to the audio lifecycle, plus the mutable
refs holding the session handles.  Gain stage handles carry their current
gain value, the filter stage handle its cutoff frequency in Hz; the other
handles are modelled by their presence alone. -/
structure AppState where
  isActive : Bool
  micGain : ℤ
  outputVolume : ℤ
  audioLevel : ℕ
  errorMsg : Option String
  echoCancel : Bool
  noiseSuppress : Bool
  autoGainControl : Bool
  latencyMode : String
  streamHeld : Bool
  audioContextLive : Bool
  sourceNode : Bool
  gainNode : Option ℚ
  outputGain : Option ℚ
  analyser : Bool
  compressor : Bool
  filter : Option ℕ
  animationScheduled : Bool
  playbackState : String
  deriving DecidableEq

/-- Initial state: the useState defaults of src/app/page.jsx lines 15-24
with all refs null (lines 27-35). -/
def initState : AppState where
  isActive := false
  micGain := 80
  outputVolume := 60
  audioLevel := 0
  errorMsg := none
  echoCancel := true
  noiseSuppress := true
  autoGainControl := false
  latencyMode := "interactive"
  streamHeld := false
  audioContextLive := false
  sourceNode := false
  gainNode := none
  outputGain := none
  analyser := false
  compressor := false
  filter := none
  animationScheduled := false
  playbackState := "none"

/-- The UserPreferences portion of the state (spec section 3): mic gain,
output volume, the three capture flags and the latency mode. -/
def prefs (s : AppState) : ℤ × ℤ × Bool × Bool × Bool × String :=
  (s.micGain, s.outputVolume, s.echoCancel, s.noiseSuppress, s.autoGainControl, s.latencyMode)

/-- All session handles are present (active session). -/
def allPresent (s : AppState) : Prop :=
  s.streamHeld = true ∧ s.audioContextLive = true ∧ s.sourceNode = true ∧
    s.gainNode.isSome = true ∧ s.outputGain.isSome = true ∧ s.analyser = true ∧
    s.compressor = true ∧ s.filter.isSome = true

/-- All session handles are absent (no session). -/
def allAbsent (s : AppState) : Prop :=
  s.streamHeld = false ∧ s.audioContextLive = false ∧ s.sourceNode = false ∧
    s.gainNode = none ∧ s.outputGain = none ∧ s.analyser = false ∧
    s.compressor = false ∧ s.filter = none

/-- The cleanup callback (src/app/page.jsx lines 38-61): cancel the pending
animation frame, stop the capture tracks, close the audio context and null
every ref.  Each action is guarded by a presence test in the source, but
the resulting state is the same whether or not the guard fires. -/
def cleanup (s : AppState) : AppState :=
  { s with
    animationScheduled := false
    streamHeld := false
    audioContextLive := false
    sourceNode := false
    gainNode := none
    outputGain := none
    analyser := false
    compressor := false
    filter := none }

/-- Sum of the squared, [-1,1]-normalised samples: the loop of
updateAudioLevel (src/app/page.jsx lines 70-74), sample = (d - 128) / 128,
sum += sample * sample. -/
def sumSquares (buf : List ℕ) : ℚ :=
  (buf.map (fun d => (((d : ℚ) - 128) / 128) * (((d : ℚ) - 128) / 128))).sum

/-- Mean square of the buffer, sum / dataArray.length
(src/app/page.jsx line 75 before the square root). -/
def meanSquare (buf : List ℕ) : ℚ :=
  sumSquares buf / (buf.length : ℚ)

/-- Round of 300 times the square root of a nonnegative rational, computed
with integer arithmetic: for q = a / b in lowest terms this is the floor of
(sqrt(360000 a b) + b) / (2 b), which equals round(sqrt(q) * 300).  This is
the exact-arithmetic reading of Math.round(rms * 100 * 3)
(src/app/page.jsx line 76); the identity with the real-number formula is
proved in roundSqrt300_eq below. -/
def roundSqrt300 (q : ℚ) : ℕ :=
  (Nat.sqrt (4 * (90000 * q.num.toNat) * q.den) + q.den) / (2 * q.den)

/-- The level computed by one meter iteration from a buffer of unsigned
8-bit time-domain samples: rms = sqrt(sum / length),
level = round(rms * 100 * 3), displayed as min(100, level)
(src/app/page.jsx lines 66-78). -/
def sampleLevel (buf : List ℕ) : ℕ :=
  min 100 (roundSqrt300 (meanSquare buf))

/-- One invocation of updateAudioLevel (src/app/page.jsx lines 63-80): if
the analyser ref is null it returns immediately, otherwise it samples the
analyser (the buffer is an environment input), stores the clamped level and
schedules the next iteration. -/
def updateAudioLevel (buf : List ℕ) (s : AppState) : AppState :=
  if s.analyser then
    { s with audioLevel := sampleLevel buf, animationScheduled := true }
  else s

/-- The successful body of createOptimizedAudioChain (src/app/page.jsx
lines 82-142): creates context, source, input gain, compressor, filter,
output gain and analyser, configures the filter cutoff from the current
noise-suppression flag (line 113) and the gains from the current
preferences (lines 129-130), and stores every ref. -/
def createOptimizedAudioChain (s : AppState) : AppState :=
  { s with
    audioContextLive := true
    sourceNode := true
    gainNode := some ((s.micGain : ℚ) / 100)
    outputGain := some ((s.outputVolume : ℚ) / 100)
    analyser := true
    compressor := true
    filter := some (if s.noiseSuppress then 200 else 80) }

/-- Platform outcome of one startAmbientSound attempt: the capture
acquisition (getUserMedia, line 162) rejects with a named error, or it
succeeds and the graph construction (line 166) throws a named error, or
both succeed. -/
inductive StartOutcome where
  | acqFail (name : String)
  | buildFail (name : String)
  | ok
  deriving DecidableEq

/-- The user-facing message produced by the catch block of
startAmbientSound (src/app/page.jsx lines 176-194): a fixed prefix plus a
sentence selected by switching on the error name, with a default branch. -/
def captureErrorMessage (name : String) : String :=
  if name = "NotAllowedError" then
    "Microphone access failed. Please allow microphone access in your browser settings."
  else if name = "NotFoundError" then
    "Microphone access failed. No microphone detected. Please connect a microphone."
  else if name = "NotReadableError" then
    "Microphone access failed. Microphone is being used by another application."
  else
    "Microphone access failed. Please check your audio settings and try again."

/-- The four capture error kinds of spec section 4.1. -/
inductive CaptureErrorKind where
  | permissionDenied
  | deviceNotFound
  | deviceBusy
  | unknownCapture
  deriving DecidableEq

/-- Classification of a platform error name into the four kinds, following
the switch of src/app/page.jsx lines 180-192. -/
def classifyCaptureError (name : String) : CaptureErrorKind :=
  if name = "NotAllowedError" then .permissionDenied
  else if name = "NotFoundError" then .deviceNotFound
  else if name = "NotReadableError" then .deviceBusy
  else .unknownCapture

/-- The kind-specific sentence of each error kind (spec section 7). -/
def kindMessage : CaptureErrorKind → String
  | .permissionDenied => "Please allow microphone access in your browser settings."
  | .deviceNotFound => "No microphone detected. Please connect a microphone."
  | .deviceBusy => "Microphone is being used by another application."
  | .unknownCapture => "Please check your audio settings and try again."

/-- Synchronous prefix of startAmbientSound before the getUserMedia await
(src/app/page.jsx lines 145-160): clear the error slot and snapshot the
constraints (the snapshot is recomputed from the state at resolution time
below; no preference field changes in between in any modelled trace). -/
def startPhase1 (s : AppState) : AppState :=
  { s with errorMsg := none }

/-- Resumption of startAmbientSound once the pending acquisition resolves
(src/app/page.jsx lines 162-195).  On success the stream ref is stored
(line 163), the chain is built (line 166), the controller becomes active
(line 168), the meter loop starts (line 169) and the now-playing state is
set (lines 172-174).  If the graph build throws after acquisition, the
catch block only records a message: the stored stream ref is not released.
If acquisition itself rejects, nothing was stored and only the message is
recorded. -/
def startResolve (o : StartOutcome) (buf : List ℕ) (s : AppState) : AppState :=
  match o with
  | .acqFail name => { s with errorMsg := some (captureErrorMessage name) }
  | .buildFail name =>
      { s with streamHeld := true, errorMsg := some (captureErrorMessage name) }
  | .ok =>
      let s1 := createOptimizedAudioChain { s with streamHeld := true }
      let s2 := updateAudioLevel buf { s1 with isActive := true }
      { s2 with playbackState := "playing" }

/-- A whole startAmbientSound attempt that runs to resolution without
interleaving (src/app/page.jsx lines 144-196). -/
def startAmbientSound (o : StartOutcome) (buf : List ℕ) (s : AppState) : AppState :=
  startResolve o buf (startPhase1 s)

/-- createOptimizedAudioChain is a useCallback closure over the
render-time values of latencyMode, noiseSuppress, micGain and outputVolume
(src/app/page.jsx line 142), and startAmbientSound closes over it
(line 196).  A stale invocation of a captured closure (the setTimeout of a
toggle, or a media-session handler registered at mount) therefore builds
the chain from the values captured when the closure was created, not from
the current state.  This variant makes the captured values explicit
parameters; everything that goes through refs or setters still reads and
writes the current state. -/
def createChainClosure (micG outV : ℤ) (ns : Bool) (s : AppState) : AppState :=
  { s with
    audioContextLive := true
    sourceNode := true
    gainNode := some ((micG : ℚ) / 100)
    outputGain := some ((outV : ℚ) / 100)
    analyser := true
    compressor := true
    filter := some (if ns then 200 else 80) }

/-- Resumption of a startAmbientSound attempt run from a captured closure:
identical to startResolve except that the chain is built from the captured
preference values. -/
def startResolveClosure (micG outV : ℤ) (ns : Bool) (o : StartOutcome) (buf : List ℕ)
    (s : AppState) : AppState :=
  match o with
  | .acqFail name => { s with errorMsg := some (captureErrorMessage name) }
  | .buildFail name =>
      { s with streamHeld := true, errorMsg := some (captureErrorMessage name) }
  | .ok =>
      let s1 := createChainClosure micG outV ns { s with streamHeld := true }
      let s2 := updateAudioLevel buf { s1 with isActive := true }
      { s2 with playbackState := "playing" }

/-- A whole startAmbientSound attempt run from a captured closure with the
captured preference values made explicit. -/
def startClosure (micG outV : ℤ) (ns : Bool) (o : StartOutcome) (buf : List ℕ)
    (s : AppState) : AppState :=
  startResolveClosure micG outV ns o buf (startPhase1 s)

/-- stopAmbientSound (src/app/page.jsx lines 198-206): cleanup, deactivate,
zero the level meter and report paused to the media session. -/
def stopAmbientSound (s : AppState) : AppState :=
  { cleanup s with isActive := false, audioLevel := 0, playbackState := "paused" }

/-- updateMicGain (src/app/page.jsx lines 208-213): store the preference
and, when the live input gain stage exists, set its gain to value / 100. -/
def updateMicGain (v : ℤ) (s : AppState) : AppState :=
  { s with micGain := v, gainNode := s.gainNode.map (fun _ => (v : ℚ) / 100) }

/-- updateOutputVolume (src/app/page.jsx lines 215-221): store the
preference and, when the live output gain stage exists, set its gain to
volume / 100. -/
def updateOutputVolume (v : ℤ) (s : AppState) : AppState :=
  { s with outputVolume := v, outputGain := s.outputGain.map (fun _ => (v : ℚ) / 100) }

/-- toggleEchoCancel (src/app/page.jsx lines 223-230): flip the flag and,
if a session is active, stop and schedule a delayed restart.  The Boolean
of the result records whether the restart was scheduled. -/
def toggleEchoCancel (s : AppState) : AppState × Bool :=
  let s1 := { s with echoCancel := !s.echoCancel }
  if s1.isActive then (stopAmbientSound s1, true) else (s1, false)

/-- First half of toggleNoiseSuppress (src/app/page.jsx lines 233-236):
flip the flag and apply the new cutoff (200 Hz when newly enabled, 80 Hz
when newly disabled) to the live filter stage if one exists. -/
def toggleNoiseSuppressLive (s : AppState) : AppState :=
  let ns := !s.noiseSuppress
  { s with
    noiseSuppress := ns
    filter := s.filter.map (fun _ => if ns then 200 else 80) }

/-- toggleNoiseSuppress (src/app/page.jsx lines 232-242): the live update
above, then, only when the toggle enables noise suppression while active
(isActive and the negated old flag, line 237), stop and schedule a delayed
restart.  The Boolean of the result records whether the restart was
scheduled. -/
def toggleNoiseSuppress (s : AppState) : AppState × Bool :=
  let s1 := toggleNoiseSuppressLive s
  if s1.isActive && s1.noiseSuppress then (stopAmbientSound s1, true) else (s1, false)

/-- toggleAutoGain (src/app/page.jsx lines 244-250): flip the flag and, if
active, stop and schedule a delayed restart. -/
def toggleAutoGain (s : AppState) : AppState × Bool :=
  let s1 := { s with autoGainControl := !s.autoGainControl }
  if s1.isActive then (stopAmbientSound s1, true) else (s1, false)

/-- The play action handler registered with the media session
(src/app/page.jsx lines 274-278): start when the captured isActive is
false.  The registering effect has deps [cleanup] (line 316) and cleanup
has a stable identity, so the effect runs exactly once and the handler
permanently captures the mount-time isActive (false) together with the
mount-time startAmbientSound closure (micGain 80, outputVolume 60,
noiseSuppress true).  The captured values are explicit parameters; the
handler as actually registered is obtained at capturedActive = false,
micG = 80, outV = 60, ns = true. -/
def mediaPlayAction (capturedActive : Bool) (micG outV : ℤ) (ns : Bool)
    (o : StartOutcome) (buf : List ℕ) (s : AppState) : AppState :=
  if capturedActive then s else startClosure micG outV ns o buf s

/-- The pause action handler (src/app/page.jsx lines 280-284): stop when
the captured isActive is true.  As registered at mount the captured flag
is permanently false (same once-only effect as for play). -/
def mediaPauseAction (capturedActive : Bool) (s : AppState) : AppState :=
  if capturedActive then stopAmbientSound s else s

/-- The stop action handler (src/app/page.jsx lines 286-293): inline
cleanup, deactivate, zero the meter, report paused. -/
def mediaStopAction (s : AppState) : AppState :=
  { cleanup s with isActive := false, audioLevel := 0, playbackState := "paused" }

/-- The seekbackward action handler (src/app/page.jsx lines 296-302):
lower the captured output volume by 10 clamped at 0, store it and apply it
to the live output gain stage when present.  The handler is registered
once (same effect as above) and captures the mount-time outputVolume, 60,
so the computation never sees the current volume; the captured value is an
explicit parameter. -/
def seekBackwardAction (capturedVol : ℤ) (s : AppState) : AppState :=
  let nv := max 0 (capturedVol - 10)
  { s with outputVolume := nv, outputGain := s.outputGain.map (fun _ => (nv : ℚ) / 100) }

/-- The seekforward action handler (src/app/page.jsx lines 304-310): raise
the captured output volume by 10 clamped at 100, store it and apply it to
the live output gain stage when present; as registered the captured value
is permanently the mount-time 60. -/
def seekForwardAction (capturedVol : ℤ) (s : AppState) : AppState :=
  let nv := min 100 (capturedVol + 10)
  { s with outputVolume := nv, outputGain := s.outputGain.map (fun _ => (nv : ℚ) / 100) }

/-- A session made active by a successful start from the initial state,
with a silent first analyser buffer. -/
def activeS : AppState :=
  startAmbientSound .ok [128] initState

/-- A live session started with noise suppression disabled: obtained by
toggling the flag while idle and then starting. -/
def sOff : AppState :=
  startAmbientSound .ok [128] (toggleNoiseSuppress initState).1

/-- A buffer of n alternating sample pairs 0, 255. -/
def altRep : ℕ → List ℕ
  | 0 => []
  | n + 1 => 0 :: 255 :: altRep n

lemma sumSquares_cons (d : ℕ) (l : List ℕ) :
    sumSquares (d :: l) =
      (((d : ℚ) - 128) / 128) * (((d : ℚ) - 128) / 128) + sumSquares l := by
  simp [sumSquares]

lemma meanSquare_nonneg (buf : List ℕ) : 0 ≤ meanSquare buf := by
  apply div_nonneg _ (by positivity)
  apply List.sum_nonneg
  intro x hx
  simp only [List.mem_map] at hx
  obtain ⟨d, _, rfl⟩ := hx
  exact mul_self_nonneg _

/-- The integer-arithmetic rounding used by roundSqrt300 agrees with the
real-number formula round(sqrt(q) times 300) on nonnegative rationals. -/
lemma roundSqrt300_eq (q : ℚ) (hq : 0 ≤ q) :
    (roundSqrt300 q : ℤ) = round (Real.sqrt q * 300) := by
  have hb0 : 0 < q.den := q.pos
  have hbR : (0 : ℝ) < (q.den : ℝ) := by exact_mod_cast hb0
  have hnum : ((q.num.toNat : ℤ)) = q.num := Int.toNat_of_nonneg (Rat.num_nonneg.mpr hq)
  have hnumR : ((q.num : ℤ) : ℝ) = ((q.num.toNat : ℕ) : ℝ) := by exact_mod_cast hnum.symm
  have hcast : ((q : ℝ)) = ((q.num.toNat : ℕ) : ℝ) / ((q.den : ℕ) : ℝ) := by
    rw [Rat.cast_def, hnumR]
  have hNR : (((4 * (90000 * q.num.toNat) * q.den : ℕ)) : ℝ) =
      (q : ℝ) * (600 * (q.den : ℝ)) ^ 2 := by
    rw [hcast]
    push_cast
    field_simp
    ring
  have hkey : Real.sqrt ((4 * (90000 * q.num.toNat) * q.den : ℕ)) =
      Real.sqrt q * (600 * (q.den : ℝ)) := by
    rw [hNR, Real.sqrt_mul (by exact_mod_cast hq), Real.sqrt_sq (by positivity)]
  have harith : Real.sqrt q * 300 + 1 / 2 =
      (Real.sqrt ((4 * (90000 * q.num.toNat) * q.den : ℕ)) + (q.den : ℝ)) /
        ((2 * q.den : ℕ) : ℝ) := by
    rw [hkey]
    push_cast
    field_simp
    ring
  rw [round_eq, harith, ← Int.natCast_floor_eq_floor (by positivity),
    Nat.floor_div_nat, Nat.floor_add_nat (Real.sqrt_nonneg _),
    Real.nat_floor_real_sqrt_eq_nat_sqrt]
  rfl

lemma roundSqrt300_zero : roundSqrt300 0 = 0 := by
  simp [roundSqrt300]

lemma sampleLevel_replicate128 (n : ℕ) : sampleLevel (List.replicate n 128) = 0 := by
  have hsum : sumSquares (List.replicate n 128) = 0 := by
    induction n with
    | zero => simp [sumSquares]
    | succ k ih => rw [List.replicate_succ, sumSquares_cons, ih]; norm_num
  rw [sampleLevel, meanSquare, hsum]
  norm_num [roundSqrt300_zero]

lemma length_altRep (n : ℕ) : (altRep n).length = 2 * n := by
  induction n with
  | zero => simp [altRep]
  | succ k ih => simp [altRep, ih]; ring

lemma sumSquares_altRep (n : ℕ) : sumSquares (altRep n) = n * (32513 / 16384 : ℚ) := by
  induction n with
  | zero => simp [altRep, sumSquares]
  | succ k ih =>
      rw [altRep, sumSquares_cons, sumSquares_cons, ih]
      push_cast
      ring_nf

lemma meanSquare_altRep (n : ℕ) (hn : 1 ≤ n) :
    meanSquare (altRep n) = 32513 / 32768 := by
  have hn' : (n : ℚ) ≠ 0 := by
    exact_mod_cast Nat.one_le_iff_ne_zero.mp hn
  rw [meanSquare, sumSquares_altRep, length_altRep]
  push_cast
  field_simp
  ring

lemma num_den_32513 :
    ((32513 : ℚ) / 32768).num = 32513 ∧ ((32513 : ℚ) / 32768).den = 32768 := by
  have h : ((32513 : ℚ) / 32768) = Rat.mk' 32513 32768 (by norm_num) (by norm_num) := by
    rw [Rat.mk'_eq_divInt, Rat.divInt_eq_div]
    norm_num
  rw [h]
  exact ⟨rfl, rfl⟩

lemma sampleLevel_altRep (n : ℕ) (hn : 1 ≤ n) : sampleLevel (altRep n) = 100 := by
  rw [sampleLevel, meanSquare_altRep n hn, roundSqrt300, num_den_32513.1, num_den_32513.2]
  have htoNat : (32513 : ℤ).toNat = 32513 := rfl
  rw [htoNat]
  have hle : (6520832 : ℕ) ≤ Nat.sqrt (4 * (90000 * 32513) * 32768) :=
    Nat.le_sqrt.mpr (by norm_num)
  have h100 : 100 ≤ (Nat.sqrt (4 * (90000 * 32513) * 32768) + 32768) / (2 * 32768) := by
    rw [Nat.le_div_iff_mul_le (by norm_num)]
    omega
  exact min_eq_left h100

/-- C9: teardown is idempotent and safe from every state, including Idle:
running cleanup twice produces exactly the same observable state (handles,
level meter, device ownership and all other fields) as running it once. -/
theorem cleanup_idempotent : ∀ s : AppState, cleanup (cleanup s) = cleanup s := by
  intro s
  rfl

/-- C10: whenever the analyser handle is null, an invocation of the level
meter step is a complete no-op, leaving the whole state (in particular the
current level) unchanged and scheduling no further iteration; in
particular a stray invocation that fires after cleanup does nothing. -/
theorem meterStep_inactive_noop :
    ∀ (buf : List ℕ) (s : AppState),
      (s.analyser = false → updateAudioLevel buf s = s) ∧
        updateAudioLevel buf (cleanup s) = cleanup s := by
  intro buf s
  constructor
  · intro h
    simp [updateAudioLevel, h]
  · simp [updateAudioLevel, cleanup]

/-- Witness for C10: a stray meter invocation on the initial (idle) state
is a no-op. -/
theorem meterStep_inactive_noop_witness :
    updateAudioLevel [0] initState = initState :=
  (meterStep_inactive_noop [0] initState).1 rfl

/-- C4: sampleLevel is a pure function of its input buffer of unsigned
8-bit samples; it equals round(sqrt(mean(((sample-128)/128)^2)) * 100 * 3)
clamped to [0,100]; a buffer of all 128s yields level 0, and a buffer of
alternating 0 and 255 samples yields level 100. -/
theorem sampleLevel_spec :
    (∀ buf : List ℕ,
        (sampleLevel buf : ℤ) = min 100 (round (Real.sqrt (meanSquare buf) * 300))) ∧
      (∀ buf : List ℕ, sampleLevel buf ≤ 100) ∧
      (∀ n : ℕ, sampleLevel (List.replicate n 128) = 0) ∧
      (∀ n : ℕ, 1 ≤ n → sampleLevel (altRep n) = 100) := by
  refine ⟨?_, ?_, sampleLevel_replicate128, sampleLevel_altRep⟩
  · intro buf
    rw [sampleLevel]
    push_cast [Nat.cast_min]
    rw [roundSqrt300_eq _ (meanSquare_nonneg buf)]
  · intro buf
    exact min_le_left _ _

/-- Witness for C4 at the concrete alternating buffer of one 0,255 pair. -/
theorem sampleLevel_spec_witness :
    (1 : ℕ) ≤ 1 ∧ sampleLevel (altRep 1) = 100 :=
  ⟨le_refl 1, sampleLevel_spec.2.2.2 1 (le_refl 1)⟩

/-- C5: every platform error name is mapped to exactly one of the four
defined error kinds (no error is left unmapped, thanks to the default
branch); the message produced by the catch block of startAmbientSound is
the fixed prefix plus the kind-specific sentence of the classified kind;
and the four kind-specific sentences are pairwise distinct. -/
theorem captureError_taxonomy :
    (∀ name : String, ∃ k : CaptureErrorKind, classifyCaptureError name = k) ∧
      (∀ name : String,
        captureErrorMessage name =
          "Microphone access failed. " ++ kindMessage (classifyCaptureError name)) ∧
      (∀ k k' : CaptureErrorKind, kindMessage k = kindMessage k' → k = k') := by
  refine ⟨fun name => ⟨classifyCaptureError name, rfl⟩, ?_, ?_⟩
  case refine_2 =>
    intro k k' h
    cases k <;> cases k' <;> simp_all [kindMessage]
  intro name
  by_cases h1 : name = "NotAllowedError"
  · simp [captureErrorMessage, classifyCaptureError, h1, kindMessage]
  · by_cases h2 : name = "NotFoundError"
    · simp [captureErrorMessage, classifyCaptureError, h1, h2, kindMessage]
    · by_cases h3 : name = "NotReadableError"
      · simp [captureErrorMessage, classifyCaptureError, h1, h2, h3, kindMessage]
      · simp [captureErrorMessage, classifyCaptureError, h1, h2, h3, kindMessage]

/-- Witness for C5: the injectivity clause applied at a concrete kind. -/
theorem captureError_taxonomy_witness :
    CaptureErrorKind.permissionDenied = CaptureErrorKind.permissionDenied :=
  captureError_taxonomy.2.2 .permissionDenied .permissionDenied rfl

/-- C7: updateMicGain always stores the new preference value, never tears
the session down (activity flag and every handle other than the input gain
stage are untouched, and the input gain stage stays present), and when the
live input gain stage exists its gain becomes exactly v / 100. -/
theorem updateMicGain_live :
    ∀ (s : AppState) (v : ℤ),
      (updateMicGain v s).micGain = v ∧
        (updateMicGain v s).isActive = s.isActive ∧
        (updateMicGain v s).streamHeld = s.streamHeld ∧
        (updateMicGain v s).audioContextLive = s.audioContextLive ∧
        (updateMicGain v s).analyser = s.analyser ∧
        (updateMicGain v s).outputGain = s.outputGain ∧
        (updateMicGain v s).filter = s.filter ∧
        (updateMicGain v s).gainNode.isSome = s.gainNode.isSome ∧
        (s.gainNode.isSome = true →
          (updateMicGain v s).gainNode = some ((v : ℚ) / 100)) := by
  intro s v
  refine ⟨rfl, rfl, rfl, rfl, rfl, rfl, rfl, by simp [updateMicGain], ?_⟩
  intro h
  obtain ⟨g, hg⟩ := Option.isSome_iff_exists.mp h
  simp [updateMicGain, hg]

/-- Witness for C7: setting mic gain to 0 on a live session keeps the
session and sets the input stage gain to 0 / 100. -/
theorem updateMicGain_live_witness :
    (updateMicGain 0 activeS).micGain = 0 ∧
      (updateMicGain 0 activeS).analyser = activeS.analyser ∧
      (updateMicGain 0 activeS).gainNode = some (((0 : ℤ) : ℚ) / 100) :=
  ⟨(updateMicGain_live activeS 0).1,
    (updateMicGain_live activeS 0).2.2.2.2.1,
    (updateMicGain_live activeS 0).2.2.2.2.2.2.2.2 rfl⟩

/-- Counterexample for C8: with the handlers as actually registered at
mount (captured isActive = false, captured outputVolume = 60, captured
start closure micGain 80 / outputVolume 60 / noiseSuppress true): pause on
a live session does not stop it; the forward seek on a session whose
current volume is 0 sets 70, not 0 + 10; and play on a live session whose
mic gain preference has been lowered to 0 restarts it anyway and installs
the stale captured gain 80 / 100. -/
theorem mediaHandlers_cx :
    (mediaPauseAction false activeS).isActive = true ∧
      (updateOutputVolume 0 activeS).outputVolume = 0 ∧
      (seekForwardAction 60 (updateOutputVolume 0 activeS)).outputVolume = 70 ∧
      (updateMicGain 0 activeS).isActive = true ∧
      (mediaPlayAction false 80 60 true .ok [128] (updateMicGain 0 activeS)).gainNode
        = some (((80 : ℤ) : ℚ) / 100) := by
  refine ⟨rfl, rfl, ?_, rfl, rfl⟩
  show (min 100 (60 + 10) : ℤ) = 70
  norm_num

/-- C8 amended: the handler-registering effect (deps [cleanup], a stable
identity) runs exactly once, so every media-session handler permanently
captures first-render state.  Consequently the registered play handler
launches a full start attempt from every state, even while a session is
active, building from the captured mount-time preferences (micGain 80,
outputVolume 60, noiseSuppress true); the registered pause handler never
does anything; only the stop handler coincides with stopAmbientSound from
every state; and the two seek handlers always set the output volume to 50
and 70 respectively, regardless of the current volume, behaving exactly as
updateOutputVolume at those constants (which also applies the value to the
live output gain stage when present). -/
theorem mediaHandlers_match :
    ∀ (s : AppState) (o : StartOutcome) (buf : List ℕ),
      mediaPlayAction false 80 60 true o buf s = startClosure 80 60 true o buf s ∧
        mediaPauseAction false s = s ∧
        mediaStopAction s = stopAmbientSound s ∧
        seekBackwardAction 60 s = updateOutputVolume 50 s ∧
        seekForwardAction 60 s = updateOutputVolume 70 s ∧
        (seekBackwardAction 60 s).outputVolume = 50 ∧
        (seekForwardAction 60 s).outputVolume = 70 ∧
        (startClosure 80 60 true .ok buf s).isActive = true ∧
        (startClosure 80 60 true .ok buf s).gainNode = some (((80 : ℤ) : ℚ) / 100) := by
  intro s o buf
  have hb : (max 0 (60 - 10) : ℤ) = 50 := by norm_num
  have hf : (min 100 (60 + 10) : ℤ) = 70 := by norm_num
  refine ⟨rfl, rfl, rfl, ?_, ?_, ?_, ?_, rfl, rfl⟩
  · simp only [seekBackwardAction, updateOutputVolume, hb]
  · simp only [seekForwardAction, updateOutputVolume, hf]
  · show (max 0 (60 - 10) : ℤ) = 50
    exact hb
  · show (min 100 (60 + 10) : ℤ) = 70
    exact hf

lemma sampleLevel_zero_buf : sampleLevel [0] = 100 := by
  have h1 : meanSquare [0] = 1 := by
    rw [meanSquare, sumSquares]
    norm_num
  have h : Nat.sqrt 360000 = 600 := by
    rw [show (360000 : ℕ) = 600 * 600 by norm_num]
    exact Nat.sqrt_eq 600
  rw [sampleLevel, h1, roundSqrt300]
  norm_num [h]

lemma toggleNS_flag (s : AppState) :
    (toggleNoiseSuppress s).1.noiseSuppress = !s.noiseSuppress := by
  cases hA : s.isActive <;> cases hN : s.noiseSuppress <;>
    simp [toggleNoiseSuppress, toggleNoiseSuppressLive, stopAmbientSound, cleanup, hA, hN]

lemma toggleNS_scheduled (s : AppState) :
    (toggleNoiseSuppress s).2 = (s.isActive && !s.noiseSuppress) := by
  cases hA : s.isActive <;> cases hN : s.noiseSuppress <;>
    simp [toggleNoiseSuppress, toggleNoiseSuppressLive, hA, hN]

lemma toggleNSLive_filter (s : AppState) (h : s.filter.isSome = true) :
    (toggleNoiseSuppressLive s).filter = some (if s.noiseSuppress then 80 else 200) := by
  obtain ⟨f, hf⟩ := Option.isSome_iff_exists.mp h
  cases hN : s.noiseSuppress <;> simp [toggleNoiseSuppressLive, hf, hN]

lemma toggleNS_stopped (s : AppState) (h : (toggleNoiseSuppress s).2 = true) :
    allAbsent (toggleNoiseSuppress s).1 := by
  cases hA : s.isActive <;> cases hN : s.noiseSuppress <;>
    simp [toggleNoiseSuppress, toggleNoiseSuppressLive, hA, hN] at h ⊢ <;>
    exact ⟨rfl, rfl, rfl, rfl, rfl, rfl, rfl, rfl⟩

lemma toggleNS_keeps_live (s : AppState) (h : (toggleNoiseSuppress s).2 = false) :
    (toggleNoiseSuppress s).1 = toggleNoiseSuppressLive s := by
  cases hA : s.isActive <;> cases hN : s.noiseSuppress <;>
    simp [toggleNoiseSuppress, toggleNoiseSuppressLive, hA, hN] at h ⊢

lemma startClosure_current (o : StartOutcome) (buf : List ℕ) (s : AppState) :
    startClosure s.micGain s.outputVolume s.noiseSuppress o buf s
      = startAmbientSound o buf s := by
  cases o <;> rfl

lemma toggleNS_rebuild_filter (s : AppState) (h : (toggleNoiseSuppress s).2 = true)
    (buf : List ℕ) :
    (startClosure s.micGain s.outputVolume s.noiseSuppress .ok buf
        (toggleNoiseSuppress s).1).filter = some 80 ∧
      (startClosure s.micGain s.outputVolume s.noiseSuppress .ok buf
        (toggleNoiseSuppress s).1).noiseSuppress = true := by
  cases hA : s.isActive <;> cases hN : s.noiseSuppress <;>
    simp [toggleNoiseSuppress, toggleNoiseSuppressLive, hA, hN] at h ⊢ <;>
    simp [startClosure, startPhase1, startResolveClosure, createChainClosure,
      updateAudioLevel, stopAmbientSound, cleanup, toggleNoiseSuppressLive, hN]

/-- Counterexample for C1: start issued from Idle, stop issued while the
acquisition is still pending, acquisition then resolving successfully: the
controller ends Active with the capture device held, not Idle. -/
theorem stop_during_pending_start_cx :
    (startResolve .ok [128] (stopAmbientSound (startPhase1 initState))).isActive = true ∧
      (startResolve .ok [128] (stopAmbientSound (startPhase1 initState))).streamHeld = true :=
  ⟨rfl, rfl⟩

/-- C1 amended: the code has no stop-requested-during-start flag, so a
stop issued while a start is pending is honored only when the acquisition
fails.  If the pending acquisition rejects, the final state is Idle with
every handle absent; if it resolves successfully, the controller becomes
Active again with a full session and the capture device held; if the
acquisition succeeds but the graph build fails, the controller stays
inactive but the capture device is re-acquired and held. -/
theorem stop_during_pending_start_amended :
    ∀ (s : AppState) (name : String) (buf : List ℕ),
      ((startResolve (.acqFail name) buf (stopAmbientSound (startPhase1 s))).isActive = false ∧
        allAbsent (startResolve (.acqFail name) buf (stopAmbientSound (startPhase1 s)))) ∧
      ((startResolve (.buildFail name) buf (stopAmbientSound (startPhase1 s))).isActive = false ∧
        (startResolve (.buildFail name) buf (stopAmbientSound (startPhase1 s))).streamHeld
          = true) ∧
      ((startResolve .ok buf (stopAmbientSound (startPhase1 s))).isActive = true ∧
        allPresent (startResolve .ok buf (stopAmbientSound (startPhase1 s)))) := by
  intro s name buf
  exact ⟨⟨rfl, rfl, rfl, rfl, rfl, rfl, rfl, rfl, rfl⟩, ⟨rfl, rfl⟩,
    ⟨rfl, rfl, rfl, rfl, rfl, rfl, rfl, rfl, rfl⟩⟩

/-- Counterexample for C2: a start whose acquisition succeeds but whose
graph build then fails leaves the acquired capture stream held: the catch
block of startAmbientSound records a message but never releases the stream
stored in streamRef, so the partially acquired resource is not released
on re-entering the inactive state. -/
theorem start_failure_leak_cx :
    (startAmbientSound (.buildFail "NotSupportedError") [] initState).streamHeld = true ∧
      (startAmbientSound (.buildFail "NotSupportedError") [] initState).isActive = false :=
  ⟨rfl, rfl⟩

/-- C2 amended: every start attempt, failing or not, leaves all
UserPreferences fields unchanged; a failing attempt never changes the
activity flag and surfaces the kind-specific message; an acquisition
failure acquires nothing (capture, context and gain handles unchanged);
but after a graph-build failure the capture stream is held and is not
released before the attempt ends. -/
theorem start_failure_amended :
    ∀ (s : AppState) (o : StartOutcome) (buf : List ℕ) (name : String),
      prefs (startAmbientSound o buf s) = prefs s ∧
        ((startAmbientSound (.acqFail name) buf s).isActive = s.isActive ∧
          (startAmbientSound (.acqFail name) buf s).streamHeld = s.streamHeld ∧
          (startAmbientSound (.acqFail name) buf s).audioContextLive = s.audioContextLive ∧
          (startAmbientSound (.acqFail name) buf s).gainNode = s.gainNode ∧
          (startAmbientSound (.acqFail name) buf s).errorMsg
            = some (captureErrorMessage name)) ∧
        ((startAmbientSound (.buildFail name) buf s).isActive = s.isActive ∧
          (startAmbientSound (.buildFail name) buf s).streamHeld = true ∧
          (startAmbientSound (.buildFail name) buf s).audioContextLive = s.audioContextLive ∧
          (startAmbientSound (.buildFail name) buf s).gainNode = s.gainNode ∧
          (startAmbientSound (.buildFail name) buf s).errorMsg
            = some (captureErrorMessage name)) := by
  intro s o buf name
  refine ⟨?_, ⟨rfl, rfl, rfl, rfl, rfl⟩, ⟨rfl, rfl, rfl, rfl, rfl⟩⟩
  cases o <;> rfl

/-- Counterexample for C3: disabling noise suppression on a live session
(flag currently enabled) performs no rebuild: no restart is scheduled and
the session survives (analyser and stream still held); only the live
filter update to 80 Hz is applied. -/
theorem toggleNoiseSuppress_cx :
    (toggleNoiseSuppress activeS).2 = false ∧
      (toggleNoiseSuppress activeS).1.analyser = true ∧
      (toggleNoiseSuppress activeS).1.streamHeld = true ∧
      (toggleNoiseSuppress activeS).1.filter = some 80 :=
  ⟨rfl, rfl, rfl, rfl⟩

/-- C3 amended: toggling noise suppression always flips the flag, and the
live filter stage (when present) is immediately set to the new flag's
value (200 Hz when enabling, 80 Hz when disabling); but the full rebuild
(stop plus delayed start) is scheduled exactly when the toggle enables
noise suppression while a session is active, never when it disables it.
When no rebuild is scheduled the live-updated session is the final state;
when a rebuild is scheduled the session is torn down at once, and the
delayed start runs the stale pre-toggle startAmbientSound closure, whose
captured noise-suppression flag is still false, so the rebuilt session has
an 80 Hz filter cutoff even though the stored flag is now enabled. -/
theorem toggleNoiseSuppress_amended :
    ∀ s : AppState,
      (toggleNoiseSuppress s).1.noiseSuppress = !s.noiseSuppress ∧
        (toggleNoiseSuppress s).2 = (s.isActive && !s.noiseSuppress) ∧
        (s.filter.isSome = true →
          (toggleNoiseSuppressLive s).filter
            = some (if s.noiseSuppress then 80 else 200)) ∧
        ((toggleNoiseSuppress s).2 = false →
          (toggleNoiseSuppress s).1 = toggleNoiseSuppressLive s) ∧
        ((toggleNoiseSuppress s).2 = true → allAbsent (toggleNoiseSuppress s).1) ∧
        ((toggleNoiseSuppress s).2 = true → ∀ buf : List ℕ,
          (startClosure s.micGain s.outputVolume s.noiseSuppress .ok buf
              (toggleNoiseSuppress s).1).filter = some 80 ∧
            (startClosure s.micGain s.outputVolume s.noiseSuppress .ok buf
              (toggleNoiseSuppress s).1).noiseSuppress = true) :=
  fun s =>
    ⟨toggleNS_flag s, toggleNS_scheduled s, toggleNSLive_filter s,
      toggleNS_keeps_live s, toggleNS_stopped s,
      fun h buf => toggleNS_rebuild_filter s h buf⟩

/-- Witness for C3 at the live session sOff (noise suppression disabled):
the toggle schedules a rebuild, the live filter is first patched to the
new value, and the delayed start, run from the stale pre-toggle closure,
rebuilds a session with an 80 Hz cutoff. -/
theorem toggleNoiseSuppress_amended_witness :
    (toggleNoiseSuppressLive sOff).filter
        = some (if sOff.noiseSuppress then 80 else 200) ∧
      (startClosure sOff.micGain sOff.outputVolume sOff.noiseSuppress .ok [128]
          (toggleNoiseSuppress sOff).1).filter = some 80 :=
  ⟨(toggleNoiseSuppress_amended sOff).2.2.1 rfl,
    ((toggleNoiseSuppress_amended sOff).2.2.2.2.2 rfl [128]).1⟩

/-- Counterexample for C6: after teardown (cleanup) of a live session whose
meter shows 100, the level is still 100, not 0 (cleanup never resets the
level); and a start whose graph build failed holds the capture stream
while the gain handle is absent, a reachable partial state. -/
theorem handles_invariant_cx :
    (cleanup (startAmbientSound .ok [0] initState)).audioLevel = 100 ∧
      (startAmbientSound (.buildFail "NotSupportedError") [] initState).streamHeld = true ∧
      (startAmbientSound (.buildFail "NotSupportedError") [] initState).gainNode = none :=
  ⟨sampleLevel_zero_buf, rfl, rfl⟩

/-- C6 amended: after every successful start all session handles are
present and the controller is active; after every stopAmbientSound all
handles are absent and the level meter reads 0; after cleanup (the
teardown path) all handles are absent but the level meter keeps its
previous value; and a graph-build failure leaves the capture handle held
with every other handle untouched, so partial handle states are
reachable. -/
theorem handles_invariant_amended :
    ∀ (s : AppState) (buf : List ℕ) (name : String),
      (allPresent (startAmbientSound .ok buf s) ∧
        (startAmbientSound .ok buf s).isActive = true) ∧
      (allAbsent (stopAmbientSound s) ∧ (stopAmbientSound s).audioLevel = 0) ∧
      (allAbsent (cleanup s) ∧ (cleanup s).audioLevel = s.audioLevel) ∧
      ((startAmbientSound (.buildFail name) buf s).streamHeld = true ∧
        (startAmbientSound (.buildFail name) buf s).gainNode = s.gainNode ∧
        (startAmbientSound (.buildFail name) buf s).analyser = s.analyser) := by
  intro s buf name
  exact ⟨⟨⟨rfl, rfl, rfl, rfl, rfl, rfl, rfl, rfl⟩, rfl⟩,
    ⟨⟨rfl, rfl, rfl, rfl, rfl, rfl, rfl, rfl⟩, rfl⟩,
    ⟨⟨rfl, rfl, rfl, rfl, rfl, rfl, rfl, rfl⟩, rfl⟩,
    rfl, rfl, rfl⟩

end AmbientSound
